import Mathlib

/-!
Verification development for a PostgreSQL wire-protocol intermediary
(a server-side shim that speaks protocol v3 and delegates SQL semantics
to a pluggable handler).  The definitions below are a shallow embedding
of the three source modules:

  * server_message.rs  - serialisation of server messages (ServerMessage.write)
  * client_message.rs  - parsing of client messages (ClientMessage.from_stream,
                         StartupMessage.from_stream, PasswordMessage.from_stream)
  * lib.rs             - the session: handshake (init) and request loop (step),
                         format-code negotiation (format_codes, convertParameters)

Byte streams are lists of naturals (each < 256); Rust strings are kept as
their byte sequences (String::from_utf8_lossy is abstracted as the raw
bytes, which is faithful for the ASCII data the protocol carries).
Rust panics (unwrap, panic!, todo!, index underflow) are modelled by the
error value PErr.panicked; I/O failures (read_exact past end of input)
by PErr.eof.
-/

namespace PgShim

/-- Abnormal outcomes of the Rust code: an I/O failure (UnexpectedEof from
read_exact) or a panic (unwrap / panic macro / integer-underflow abort). -/
inductive PErr
  | eof
  | panicked
deriving DecidableEq

/-- Wire format selector, client_message.rs FormatCode. -/
inductive FormatCode
  | text
  | binary
deriving DecidableEq

/-- lib.rs ParameterValue: what Handler.bind receives for each Bind
parameter.  The text variant abstracts Text(String::from_utf8_lossy(bytes))
as the raw bytes.  Note there is no NULL variant in the source. -/
inductive ParameterValue
  | text (s : List Nat)
  | binary (b : List Nat)
deriving DecidableEq

/-- lib.rs Column; column_type is the type OID. -/
structure Column where
  name : List Nat
  column_type : Nat
deriving DecidableEq

/-- Bytes of an ASCII string literal. -/
def strBytes (s : String) : List Nat :=
  s.data.map Char.toNat

/-- Big-endian bytes of a 32-bit value (write_int32; an as-i32 cast of a
larger value keeps the low 32 bits, which the per-byte mod reproduces). -/
def be32 (n : Nat) : List Nat :=
  [n / 16777216 % 256, n / 65536 % 256, n / 256 % 256, n % 256]

/-- write_int32 on an i32, two's complement big-endian. -/
def be32i (n : Int) : List Nat :=
  be32 (n % 4294967296).toNat

/-- Big-endian bytes of a 16-bit value (write_int16). -/
def be16 (n : Nat) : List Nat :=
  [n / 256 % 256, n % 256]

/-- Value encoded by the first four bytes of a list, big-endian
(u32::from_be_bytes). -/
def readBe32 : List Nat → Nat
  | a :: b :: c :: d :: _ => ((a * 256 + b) * 256 + c) * 256 + d
  | _ => 0

/-- server_message.rs ServerMessage.  CommandComplete carries the row count
of its single Select tag; RowDescription fields carry (name, type oid,
format code). -/
inductive ServerMessage
  | authenticationOk
  | authenticationCleartextPassword
  | backendKeyData (process_id secret_key : Int)
  | bindComplete
  | commandComplete (rows : Nat)
  | dataRow (fields : List (Option (List Nat)))
  | errorResponse (code : Nat) (message : List Nat)
  | emptyQueryResponse
  | noData
  | parameterStatus (name value : List Nat)
  | parseComplete
  | readyForQuery (transaction_status : Nat)
  | rowDescription (fields : List (List Nat × Nat × FormatCode))
deriving DecidableEq

/-- Wire value of a format code (0 text, 1 binary). -/
def formatCodeWire : FormatCode → Nat
  | .text => 0
  | .binary => 1

/-- One DataRow field: length -1 for a NULL slot, else length then bytes. -/
def dataRowField : Option (List Nat) → List Nat
  | none => be32i (-1)
  | some data => be32 data.length ++ data

/-- The DataRow body buffer built before its length is taken. -/
def dataRowBuffer (fields : List (Option (List Nat))) : List Nat :=
  be16 fields.length ++ (fields.map dataRowField).flatten

/-- One RowDescription field entry: name, NUL, table oid 0, attr 0,
type oid, typlen 0, typmod 0, format code. -/
def rowDescriptionField (f : List Nat × Nat × FormatCode) : List Nat :=
  f.1 ++ 0 :: (be32 0 ++ be16 0 ++ be32 f.2.1 ++ be16 0 ++ be32 0 ++ be16 (formatCodeWire f.2.2))

/-- The RowDescription body buffer built before its length is taken. -/
def rowDescriptionBuffer (fields : List (List Nat × Nat × FormatCode)) : List Nat :=
  be16 fields.length ++ (fields.map rowDescriptionField).flatten

/-- The CommandComplete body buffer: the tag string and its NUL. -/
def commandCompleteBuffer (rows : Nat) : List Nat :=
  strBytes ("SELECT " ++ Nat.repr rows) ++ [0]

/-- server_message.rs ServerMessage::write: the exact bytes each message
puts on the stream (tag, 4-byte length, payload). -/
def ServerMessage.write : ServerMessage → List Nat
  | .authenticationOk => 82 :: (be32 8 ++ be32 0)
  | .authenticationCleartextPassword => 82 :: (be32 8 ++ be32 3)
  | .backendKeyData process_id secret_key =>
      75 :: (be32 12 ++ be32i process_id ++ be32i secret_key)
  | .bindComplete => 50 :: be32 4
  | .commandComplete rows =>
      67 :: (be32 ((commandCompleteBuffer rows).length + 4) ++ commandCompleteBuffer rows)
  | .dataRow fields =>
      68 :: (be32 ((dataRowBuffer fields).length + 4) ++ dataRowBuffer fields)
  | .errorResponse code message =>
      69 :: (be32 (message.length + 4 + 1 + 1) ++ code :: (message ++ [0]))
  | .emptyQueryResponse => 73 :: be32 4
  | .noData => 110 :: be32 4
  | .parameterStatus name value =>
      83 :: (be32 (4 + name.length + 1 + value.length + 1) ++ (name ++ 0 :: (value ++ [0])))
  | .parseComplete => 49 :: be32 4
  | .readyForQuery transaction_status => 90 :: (be32 5 ++ [transaction_status])
  | .rowDescription fields =>
      84 :: (be32 ((rowDescriptionBuffer fields).length + 4) ++ rowDescriptionBuffer fields)

/-- The declared length of a message fits in 32 bits, so the i32 cast in
write_int32 does not truncate it. -/
abbrev sizeOk : ServerMessage → Prop
  | .commandComplete rows => (commandCompleteBuffer rows).length + 4 < 4294967296
  | .dataRow fields => (dataRowBuffer fields).length + 4 < 4294967296
  | .errorResponse _ message => message.length + 4 + 1 + 1 < 4294967296
  | .parameterStatus name value => 4 + name.length + 1 + value.length + 1 < 4294967296
  | .rowDescription fields => (rowDescriptionBuffer fields).length + 4 < 4294967296
  | _ => True

/-- client_message.rs Describe. -/
inductive Describe
  | statement (name : List Nat)
  | portal (name : List Nat)
deriving DecidableEq

/-- client_message.rs ClientMessage.  Parse carries the raw parameter type
OIDs; the OID catalogue consulted by Type::from_oid is an external type
library and is kept abstract as the OID itself. -/
inductive ClientMessage
  | query (query : List Nat)
  | parse (name query : List Nat) (parameters_types : List Nat)
  | bind (portal name : List Nat) (parameter_format_codes : List FormatCode)
      (parameters : List (List Nat)) (result_format_codes : List FormatCode)
  | execute (portal : List Nat) (max_rows : Nat)
  | describe (d : Describe)
  | sync
  | terminate
deriving DecidableEq

/-- read_exact into a buffer of n bytes: UnexpectedEof when the input is
shorter. -/
def readExact (n : Nat) (input : List Nat) : Except PErr (List Nat × List Nat) :=
  if n ≤ input.length then .ok (input.take n, input.drop n) else .error .eof

/-- read_int32: four big-endian bytes as a u32. -/
def readInt32 (input : List Nat) : Except PErr (Nat × List Nat) :=
  match input with
  | a :: b :: c :: d :: rest => .ok (((a * 256 + b) * 256 + c) * 256 + d, rest)
  | _ => .error .eof

/-- read_int16: two big-endian bytes as a u16. -/
def readInt16 (input : List Nat) : Except PErr (Nat × List Nat) :=
  match input with
  | a :: b :: rest => .ok (a * 256 + b, rest)
  | _ => .error .eof

/-- client_message.rs read_string: the bytes up to the first NUL, stepping
past it; the source unwraps the search, so a buffer with no NUL panics. -/
def read_string (buffer : List Nat) : Except PErr (List Nat × List Nat) :=
  let s := buffer.takeWhile (fun b => b != 0)
  if s.length = buffer.length then .error .panicked
  else .ok (s, buffer.drop (s.length + 1))

/-- The frame every tagged client message uses: a 4-byte length followed by
a buffer of length - 4 bytes (the usize subtraction aborts when the length
field is below 4). -/
def readLenPayload (input : List Nat) : Except PErr (List Nat × List Nat) :=
  match readInt32 input with
  | .error e => .error e
  | .ok (len, r) =>
    if len < 4 then .error .panicked
    else readExact (len - 4) r

/-- The format-code list of a Bind message: n i16 codes, 0 for Text and 1
for Binary.  The source matches Ok(0), Ok(1) and panics on anything else,
so a short read here also panics rather than surfacing an I/O error. -/
def readFormatCodes : Nat → List Nat → Except PErr (List FormatCode × List Nat)
  | 0, r => .ok ([], r)
  | n + 1, r =>
    match readInt16 r with
    | .ok (0, r1) =>
      match readFormatCodes n r1 with
      | .ok (fcs, r2) => .ok (FormatCode.text :: fcs, r2)
      | .error e => .error e
    | .ok (1, r1) =>
      match readFormatCodes n r1 with
      | .ok (fcs, r2) => .ok (FormatCode.binary :: fcs, r2)
      | .error e => .error e
    | _ => .error .panicked

/-- The parameter list of a Bind message: n values, each a 4-byte declared
size (read as an unsigned 32-bit integer) followed by that many raw bytes.
There is no branch for a -1 size, so 0xFFFFFFFF is treated as a byte count
of 4294967295 and read_exact fails with UnexpectedEof. -/
def readParameters : Nat → List Nat → Except PErr (List (List Nat) × List Nat)
  | 0, r => .ok ([], r)
  | n + 1, r =>
    match readInt32 r with
    | .error e => .error e
    | .ok (parameter_size, r1) =>
      match readExact parameter_size r1 with
      | .error e => .error e
      | .ok (buf, r2) =>
        match readParameters n r2 with
        | .error e => .error e
        | .ok (ps, r3) => .ok (buf :: ps, r3)

/-- The parameter-type OIDs of a Parse message. -/
def readTypeOids : Nat → List Nat → Except PErr (List Nat × List Nat)
  | 0, r => .ok ([], r)
  | n + 1, r =>
    match readInt32 r with
    | .error e => .error e
    | .ok (oid, r1) =>
      match readTypeOids n r1 with
      | .error e => .error e
      | .ok (os, r2) => .ok (oid :: os, r2)

/-- client_message.rs ClientMessage::from_stream: dispatch on the tag byte,
read the length-framed payload, parse the body from that buffer (unread
body bytes are discarded with the buffer, as the Cursor is dropped), and
return the parsed message with the unread remainder of the stream.
An unknown tag panics. -/
def ClientMessage.from_stream (input : List Nat) : Except PErr (ClientMessage × List Nat) :=
  match input with
  | [] => .error .eof
  | t :: r =>
    if t = 81 then
      match readLenPayload r with
      | .error e => .error e
      | .ok (buffer, rest) =>
        if buffer = [] then .error .panicked
        else .ok (.query buffer.dropLast, rest)
    else if t = 80 then
      match readLenPayload r with
      | .error e => .error e
      | .ok (buffer, rest) =>
        match read_string buffer with
        | .error e => .error e
        | .ok (name, b1) =>
          match read_string b1 with
          | .error e => .error e
          | .ok (queryText, b2) =>
            match readInt16 b2 with
            | .error e => .error e
            | .ok (n_parameters, b3) =>
              match readTypeOids n_parameters b3 with
              | .error e => .error e
              | .ok (parameters_types, _) => .ok (.parse name queryText parameters_types, rest)
    else if t = 66 then
      match readLenPayload r with
      | .error e => .error e
      | .ok (buffer, rest) =>
        match read_string buffer with
        | .error e => .error e
        | .ok (portal, b1) =>
          match read_string b1 with
          | .error e => .error e
          | .ok (name, b2) =>
            match readInt16 b2 with
            | .error e => .error e
            | .ok (n_format_codes, b3) =>
              match readFormatCodes n_format_codes b3 with
              | .error e => .error e
              | .ok (parameter_format_codes, b4) =>
                match readInt16 b4 with
                | .error e => .error e
                | .ok (n_parameters, b5) =>
                  match readParameters n_parameters b5 with
                  | .error e => .error e
                  | .ok (parameters, b6) =>
                    match readInt16 b6 with
                    | .error e => .error e
                    | .ok (n_result_format_codes, b7) =>
                      match readFormatCodes n_result_format_codes b7 with
                      | .error e => .error e
                      | .ok (result_format_codes, _) =>
                        .ok (.bind portal name parameter_format_codes parameters
                              result_format_codes, rest)
    else if t = 69 then
      match readLenPayload r with
      | .error e => .error e
      | .ok (buffer, rest) =>
        match read_string buffer with
        | .error e => .error e
        | .ok (portal, b1) =>
          match readInt32 b1 with
          | .error e => .error e
          | .ok (max_rows, _) => .ok (.execute portal max_rows, rest)
    else if t = 68 then
      match readInt32 r with
      | .error e => .error e
      | .ok (len, r1) =>
        match r1 with
        | [] => .error .eof
        | describe_type :: r2 =>
          if len < 5 then .error .panicked
          else
            match readExact (len - 5) r2 with
            | .error e => .error e
            | .ok (buffer, rest) =>
              if buffer = [] then .error .panicked
              else if describe_type = 83 then .ok (.describe (.statement buffer.dropLast), rest)
              else if describe_type = 80 then .ok (.describe (.portal buffer.dropLast), rest)
              else .error .panicked
    else if t = 83 then
      match readInt32 r with
      | .error e => .error e
      | .ok (_, rest) => .ok (.sync, rest)
    else if t = 88 then
      match readInt32 r with
      | .error e => .error e
      | .ok (_, rest) => .ok (.terminate, rest)
    else .error .panicked

/-- lib.rs DefaultServerParameters: the ParameterStatus value bundle the
Handler supplies.  Values are byte strings.  session_authorization is
declared in the source struct but never emitted by init. -/
structure DefaultServerParameters where
  server_version : List Nat
  server_encoding : List Nat
  client_encoding : List Nat
  application_name : List Nat
  default_transaction_read_only : List Nat
  in_hot_standby : List Nat
  is_superuser : List Nat
  session_authorization : List Nat
  date_style : List Nat
  interval_style : List Nat
  time_zone : List Nat
  integer_datetimes : List Nat
  standard_conforming_strings : List Nat
deriving DecidableEq

/-- lib.rs Portal: handler data, optional described columns, and the
result format codes sent at Bind time (Portal::new sets columns to None). -/
structure Portal (PortalData : Type) where
  portal_data : PortalData
  columns : Option (List Column)
  result_format_codes : List FormatCode
deriving DecidableEq

/-- The mutable per-session state of PostgressIntermediary: the portal map,
keyed by portal name.  The stream is modelled as explicit input and output
byte lists and the shim is passed separately. -/
structure SessionState (PortalData : Type) where
  portals : List (List Nat × Portal PortalData)
deriving DecidableEq

/-- The PostgresShim trait, functionalised: each method is a pure function
and io::Result is Except Unit.  execute receives the portal data, max_rows,
the described columns and the result format codes that wrap the stream in
the ResultWriter, and yields the bytes it writes through that writer. -/
structure Shim (PortalData : Type) where
  prepare : List Nat → List Nat → List Nat → Except Unit Unit
  bind : List Nat → List ParameterValue → Except Unit PortalData
  describe : PortalData → Except Unit (Option (List Column))
  execute : PortalData → Nat → Option (List Column) → List FormatCode → Except Unit (List Nat)
  default_parameters : DefaultServerParameters

/-- lib.rs format_codes: expand the result format codes over the columns
(0 codes: all Text; 1 code: that code for every column; otherwise the list
as given) and panic - modelled as none - when the expanded list does not
match the column count. -/
def format_codes (columns : List Column) (result_format_codes : List FormatCode) :
    Option (List FormatCode) :=
  let fcs :=
    match result_format_codes with
    | [] => List.replicate columns.length FormatCode.text
    | [c] => List.replicate columns.length c
    | other => other
  if fcs.length = columns.length then some fcs else none

/-- Conversion of one raw Bind parameter under a format code (the match
repeated in the arms of the Bind handler in lib.rs). -/
def applyFormat (format_code : FormatCode) (data : List Nat) : ParameterValue :=
  match format_code with
  | .text => ParameterValue.text data
  | .binary => ParameterValue.binary data

/-- The Bind arm of PostgressIntermediary::run, parameter conversion: with
no format codes every parameter becomes Text; with exactly one, that code
applies to every parameter; otherwise the parameters are zipped with the
codes (zip stops at the shorter list; there is no length check). -/
def convertParameters (parameter_format_codes : List FormatCode)
    (parameters : List (List Nat)) : List ParameterValue :=
  match parameter_format_codes with
  | [] => parameters.map ParameterValue.text
  | [fc] => parameters.map (applyFormat fc)
  | fcs => (parameters.zip fcs).map (fun p => applyFormat p.2 p.1)

/-- HashMap::get on the portal map (association list with replacing
insert). -/
def lookupPortal {PortalData : Type} (portals : List (List Nat × Portal PortalData))
    (name : List Nat) : Option (Portal PortalData) :=
  (portals.find? (fun e => e.1 == name)).map Prod.snd

/-- HashMap::remove on the portal map. -/
def removePortal {PortalData : Type} (portals : List (List Nat × Portal PortalData))
    (name : List Nat) : List (List Nat × Portal PortalData) :=
  portals.filter (fun e => e.1 != name)

/-- HashMap::insert on the portal map (replaces any existing entry). -/
def insertPortal {PortalData : Type} (portals : List (List Nat × Portal PortalData))
    (name : List Nat) (p : Portal PortalData) : List (List Nat × Portal PortalData) :=
  (name, p) :: removePortal portals name

/-- get_mut followed by Portal::add_columns(Some(columns)). -/
def updatePortalColumns {PortalData : Type} (portals : List (List Nat × Portal PortalData))
    (name : List Nat) (columns : List Column) : List (List Nat × Portal PortalData) :=
  portals.map (fun e => if e.1 == name then (e.1, { e.2 with columns := some columns }) else e)

/-- lib.rs row_description: the RowDescription message for the described
columns zipped with their negotiated format codes. -/
def row_description (columns : List Column) (result_format_codes : List FormatCode) :
    ServerMessage :=
  ServerMessage.rowDescription
    ((columns.zip result_format_codes).map (fun p => (p.1.name, p.1.column_type, p.2)))

/-- Outcome of handling one client message in the request loop: continue
with a new state and the bytes written, return cleanly (Terminate), panic,
or abort with an I/O error (a question-mark propagation). -/
inductive StepResult (PortalData : Type)
  | cont (st : SessionState PortalData) (out : List Nat)
  | done
  | panicAbort
  | ioError
deriving DecidableEq

/-- One iteration of the match in PostgressIntermediary::run, dispatching a
parsed client message.  Query only prints its text to stdout, so it writes
nothing to the stream.  In the Execute arm the source removes the portal
before calling the handler; when the handler then fails the session aborts,
so observing the removal only matters on the cont outcome. -/
def step {PortalData : Type} (shim : Shim PortalData) (st : SessionState PortalData) :
    ClientMessage → StepResult PortalData
  | .parse name queryText parameters_types =>
    match shim.prepare name queryText parameters_types with
    | .error _ => .ioError
    | .ok _ => .cont st ServerMessage.parseComplete.write
  | .bind portal name parameter_format_codes parameters result_format_codes =>
    match shim.bind name (convertParameters parameter_format_codes parameters) with
    | .error _ => .ioError
    | .ok portal_data =>
      .cont { st with portals :=
                insertPortal st.portals portal (Portal.mk portal_data none result_format_codes) }
        ServerMessage.bindComplete.write
  | .execute portal max_rows =>
    match lookupPortal st.portals portal with
    | some p =>
      match shim.execute p.portal_data max_rows p.columns p.result_format_codes with
      | .error _ => .ioError
      | .ok out => .cont { st with portals := removePortal st.portals portal } out
    | none =>
      .cont st (ServerMessage.errorResponse 83 (strBytes "Portal not found")).write
  | .query _ => .cont st []
  | .describe (.portal name) =>
    match lookupPortal st.portals name with
    | none => .panicAbort
    | some p =>
      match shim.describe p.portal_data with
      | .error _ => .ioError
      | .ok none => .cont st ServerMessage.noData.write
      | .ok (some columns) =>
        match format_codes columns p.result_format_codes with
        | none => .panicAbort
        | some fcs =>
          .cont { st with portals := updatePortalColumns st.portals name columns }
            (row_description columns fcs).write
  | .describe (.statement _) => .panicAbort
  | .sync => .cont st (ServerMessage.readyForQuery 73).write
  | .terminate => .done

/-- client_message.rs StartupMessage. -/
structure StartupMessage where
  protocol_version : Nat
  user : List Nat
  database : Option (List Nat)
  options : Option (List Nat)
  replication : Option (List Nat)
  parameters : List (List Nat × List Nat)
deriving DecidableEq

/-- The accumulator of StartupMessage::from_stream before the protocol
version is attached. -/
structure StartupParams where
  user : List Nat
  database : Option (List Nat)
  options : Option (List Nat)
  replication : Option (List Nat)
  parameters : List (List Nat × List Nat)
deriving DecidableEq

/-- HashMap::insert for the leftover startup parameters. -/
def insertParam (parameters : List (List Nat × List Nat)) (key value : List Nat) :
    List (List Nat × List Nat) :=
  (key, value) :: parameters.filter (fun e => e.1 != key)

/-- One key/value pair dispatched in the startup loop. -/
def applyParam (acc : StartupParams) (key value : List Nat) : StartupParams :=
  if key = strBytes "user" then { acc with user := value }
  else if key = strBytes "database" then { acc with database := some value }
  else if key = strBytes "options" then { acc with options := some value }
  else if key = strBytes "replication" then { acc with replication := some value }
  else { acc with parameters := insertParam acc.parameters key value }

theorem takeWhile_length_le (p : Nat → Bool) : ∀ l : List Nat, (l.takeWhile p).length ≤ l.length
  | [] => by simp
  | a :: l => by
    rw [List.takeWhile_cons]
    split
    · simpa using Nat.succ_le_succ (takeWhile_length_le p l)
    · simp

theorem read_string_shrink {buffer : List Nat} {kv : List Nat × List Nat}
    (h : read_string buffer = .ok kv) : kv.2.length < buffer.length := by
  simp only [read_string] at h
  split at h
  · simp at h
  · rename_i hne
    have hle : (buffer.takeWhile (fun b => b != 0)).length ≤ buffer.length :=
      takeWhile_length_le (fun b => b != 0) buffer
    injection h with h
    subst h
    simp only [List.length_drop]
    omega

/-- The while loop of StartupMessage::from_stream: read key/value cstrings
until the cursor rests on a NUL byte or the end of the buffer. -/
def parseStartupParams : List Nat → StartupParams → Except PErr StartupParams
  | [], acc => .ok acc
  | b :: rest, acc =>
    if b = 0 then .ok acc
    else
      match h1 : read_string (b :: rest) with
      | .error e => .error e
      | .ok kv1 =>
        match h2 : read_string kv1.2 with
        | .error e => .error e
        | .ok kv2 => parseStartupParams kv2.2 (applyParam acc kv1.1 kv2.1)
termination_by buffer _ => buffer.length
decreasing_by
  have l1 := read_string_shrink h1
  have l2 := read_string_shrink h2
  simp only [List.length_cons] at *
  omega

/-- client_message.rs StartupMessage::from_stream: length, protocol
version, then the key/value block of length - 8 bytes (the usize
subtraction aborts when the length field is below 8). -/
def StartupMessage.from_stream (input : List Nat) :
    Except PErr (StartupMessage × List Nat) :=
  match readInt32 input with
  | .error e => .error e
  | .ok (len, r1) =>
    match readInt32 r1 with
    | .error e => .error e
    | .ok (protocol_version, r2) =>
      if len < 8 then .error .panicked
      else
        match readExact (len - 4 - 4) r2 with
        | .error e => .error e
        | .ok (buffer, rest) =>
          match parseStartupParams buffer ⟨[], none, none, none, []⟩ with
          | .error e => .error e
          | .ok acc =>
            .ok (⟨protocol_version, acc.user, acc.database, acc.options,
                  acc.replication, acc.parameters⟩, rest)

/-- client_message.rs PasswordMessage::from_stream: tag p, length, then the
NUL-terminated password (a wrong tag panics; an empty buffer makes the
buffer.len() - 1 slice bound abort). -/
def PasswordMessage.from_stream (input : List Nat) :
    Except PErr (List Nat × List Nat) :=
  match input with
  | [] => .error .eof
  | t :: r =>
    if t = 112 then
      match readInt32 r with
      | .error e => .error e
      | .ok (len, r1) =>
        if len < 4 then .error .panicked
        else
          match readExact (len - 4) r1 with
          | .error e => .error e
          | .ok (buffer, rest) =>
            if buffer = [] then .error .panicked
            else .ok (buffer.dropLast, rest)
    else .error .panicked

/-- The server messages PostgressIntermediary::init writes, in source
order: AuthenticationCleartextPassword (sent between the two reads), then
AuthenticationOk, the thirteen ParameterStatus writes - the source sends
server_version a second time between in_hot_standby and is_superuser - and
BackendKeyData(0,0), ReadyForQuery with transaction status I. -/
def handshakeMessages (d : DefaultServerParameters) : List ServerMessage :=
  [ServerMessage.authenticationCleartextPassword,
   ServerMessage.authenticationOk,
   ServerMessage.parameterStatus (strBytes "server_version") d.server_version,
   ServerMessage.parameterStatus (strBytes "server_encoding") d.server_encoding,
   ServerMessage.parameterStatus (strBytes "client_encoding") d.client_encoding,
   ServerMessage.parameterStatus (strBytes "application_name") d.application_name,
   ServerMessage.parameterStatus (strBytes "default_transaction_read_only")
     d.default_transaction_read_only,
   ServerMessage.parameterStatus (strBytes "in_hot_standby") d.in_hot_standby,
   ServerMessage.parameterStatus (strBytes "server_version") d.server_version,
   ServerMessage.parameterStatus (strBytes "is_superuser") d.is_superuser,
   ServerMessage.parameterStatus (strBytes "DateStyle") d.date_style,
   ServerMessage.parameterStatus (strBytes "IntervalStyle") d.interval_style,
   ServerMessage.parameterStatus (strBytes "TimeZone") d.time_zone,
   ServerMessage.parameterStatus (strBytes "integer_datetimes") d.integer_datetimes,
   ServerMessage.parameterStatus (strBytes "standard_conforming_strings")
     d.standard_conforming_strings,
   ServerMessage.backendKeyData 0 0,
   ServerMessage.readyForQuery 73]

/-- The concatenated bytes of the handshake, through the first
ReadyForQuery. -/
def handshakeBytes (d : DefaultServerParameters) : List Nat :=
  ((handshakeMessages d).map ServerMessage.write).flatten

/-- The names carried by the ParameterStatus messages of the handshake, in
emission order. -/
def parameterStatusNames (d : DefaultServerParameters) : List (List Nat) :=
  (handshakeMessages d).filterMap (fun m =>
    match m with
    | ServerMessage.parameterStatus n _ => some n
    | _ => none)

/-- PostgressIntermediary::init: read the StartupMessage and drop its
value, write AuthenticationCleartextPassword, read the PasswordMessage and
drop it, then write AuthenticationOk, the ParameterStatus block,
BackendKeyData and ReadyForQuery.  The portal map is untouched; on the
success path the result is the unchanged state, the handshake bytes, and
the unread input (bytes written before a failing read are not tracked). -/
def init {PortalData : Type} (st : SessionState PortalData) (shim : Shim PortalData)
    (input : List Nat) : Except PErr (SessionState PortalData × List Nat × List Nat) :=
  match StartupMessage.from_stream input with
  | .error e => .error e
  | .ok (_, r1) =>
    match PasswordMessage.from_stream r1 with
    | .error e => .error e
    | .ok (_, rest) => .ok (st, handshakeBytes shim.default_parameters, rest)

/-- A trivial shim over unit portal data (prepare, bind, describe, execute
all succeed; describe reports no columns; default parameters all empty),
used to instantiate the theorems at concrete inputs. -/
def shimU : Shim Unit :=
  Shim.mk (fun _ _ _ => .ok ()) (fun _ _ => .ok ()) (fun _ => .ok none)
    (fun _ _ _ _ => .ok [])
    (DefaultServerParameters.mk [] [] [] [] [] [] [] [] [] [] [] [] [])

/-- Startup bytes for user alice followed by a password message pw. -/
def inputA : List Nat :=
  be32 20 ++ be32 196608 ++ ([117, 115, 101, 114, 0] ++ [97, 108, 105, 99, 101, 0] ++ [0])
    ++ ([112] ++ be32 7 ++ [112, 119, 0])

/-- Startup bytes for user bob followed by the same password message. -/
def inputB : List Nat :=
  be32 18 ++ be32 196608 ++ ([117, 115, 101, 114, 0] ++ [98, 111, 98, 0] ++ [0])
    ++ ([112] ++ be32 7 ++ [112, 119, 0])

/-- A framed Bind message whose single parameter declares value length -1
(bytes FF FF FF FF): empty portal and statement names, zero parameter
format codes, one parameter, and the declared length with no value
bytes (a NULL parameter in the PostgreSQL protocol carries none). -/
def bindNullInput : List Nat :=
  [66] ++ be32 14 ++ [0, 0, 0, 0, 0, 1, 255, 255, 255, 255]

/-- The portal name p used by concrete instantiations. -/
def pB : List Nat := [112]

theorem be32_length (n : Nat) : (be32 n).length = 4 := rfl

theorem be32i_length (n : Int) : (be32i n).length = 4 := rfl

theorem readBe32_be32_append (n : Nat) (rest : List Nat) (h : n < 4294967296) :
    readBe32 (be32 n ++ rest) = n := by
  simp only [be32, List.cons_append, List.nil_append, readBe32]
  omega

theorem lookupPortal_removePortal {PortalData : Type}
    (portals : List (List Nat × Portal PortalData)) (name : List Nat) :
    lookupPortal (removePortal portals name) name = none := by
  induction portals with
  | nil => rfl
  | cons e t ih =>
    by_cases hc : e.1 = name
    · simpa [removePortal, List.filter_cons, hc] using ih
    · simpa [removePortal, lookupPortal, List.filter_cons, List.find?_cons, hc] using ih

theorem init_ok {PortalData : Type} {st : SessionState PortalData} {shim : Shim PortalData}
    {input : List Nat} {r : SessionState PortalData × List Nat × List Nat}
    (h : init st shim input = .ok r) :
    r.1 = st ∧ r.2.1 = handshakeBytes shim.default_parameters := by
  unfold init at h
  split at h
  · cases h
  · split at h
    · cases h
    · injection h with h
      subst h
      exact ⟨rfl, rfl⟩

/-- Claim C1 (code bug): the spec mandates that a Bind parameter whose
declared value length is -1 be parsed as SQL NULL and delivered to the
Handler as a distinguished NULL ParameterValue.  The source has no branch
for the -1 length (and ParameterValue has only Text and Binary variants):
the length is read as the unsigned count 4294967295 and read_exact then
fails, so parsing this Bind message aborts the session with an I/O error
instead of producing a NULL parameter. -/
theorem c1_bind_null_length_is_io_error :
    ClientMessage.from_stream bindNullInput = .error PErr.eof := rfl

/-- Claim C2 counterexample: a Bind with two parameter format codes and
one parameter (k = 2 not in {0, 1, p = 1}) is not rejected as a protocol
error: the session processes it, binds a portal and answers BindComplete. -/
theorem c2_bind_format_length_mismatch_processed :
    step shimU ⟨[]⟩ (ClientMessage.bind [] [] [FormatCode.text, FormatCode.binary] [[65]] [])
      = StepResult.cont ⟨[([], Portal.mk () none [])]⟩ ServerMessage.bindComplete.write := rfl

/-- Claim C2 as amended: with k = 0 format codes every parameter is Text
from the raw bytes; with k = 1 the single format applies to every
parameter; for every k at least 2 (which subsumes k = p for p at least 2)
the parameters are paired with the codes positionally, the pairing
truncating to the shorter of the two lists - no k is rejected as a
protocol error. -/
theorem c2_parameter_format_negotiation (parameter_format_codes : List FormatCode)
    (parameters : List (List Nat)) :
    (parameter_format_codes = [] →
      convertParameters parameter_format_codes parameters
        = parameters.map ParameterValue.text) ∧
    (∀ fc, parameter_format_codes = [fc] →
      convertParameters parameter_format_codes parameters
        = parameters.map (applyFormat fc)) ∧
    (2 ≤ parameter_format_codes.length →
      convertParameters parameter_format_codes parameters
        = (parameters.zip parameter_format_codes).map (fun p => applyFormat p.2 p.1)) := by
  refine ⟨?_, ?_, ?_⟩
  · intro h; subst h; rfl
  · intro fc h; subst h; rfl
  · intro h
    match parameter_format_codes, h with
    | a :: b :: t, _ => rfl

theorem c2_parameter_format_negotiation_witness :
    convertParameters [FormatCode.text, FormatCode.binary] [[65]]
      = [ParameterValue.text [65]] :=
  ((c2_parameter_format_negotiation [FormatCode.text, FormatCode.binary] [[65]]).2.2
    (by decide)).trans rfl

/-- Claim C3 (code bug): the handshake is specified to send exactly one
ParameterStatus for each of the twelve advertised names, none repeated.
The source sends thirteen: server_version appears a second time between
in_hot_standby and is_superuser (where the never-emitted
session_authorization field of DefaultServerParameters would fit), as this
evaluation of the emission order shows. -/
theorem c3_parameter_status_names_duplicate (d : DefaultServerParameters) :
    parameterStatusNames d =
      [strBytes "server_version", strBytes "server_encoding", strBytes "client_encoding",
       strBytes "application_name", strBytes "default_transaction_read_only",
       strBytes "in_hot_standby", strBytes "server_version", strBytes "is_superuser",
       strBytes "DateStyle", strBytes "IntervalStyle", strBytes "TimeZone",
       strBytes "integer_datetimes", strBytes "standard_conforming_strings"] := rfl

/-- Claim C4: Execute removes the named portal, so whenever the loop
continues after an Execute the portal is absent from the map; and an
Execute naming an absent portal makes the session write ErrorResponse with
severity code S and message Portal not found and continue the loop with
the state unchanged (no termination, no panic). -/
theorem c4_execute_portal_lifecycle {PortalData : Type} (shim : Shim PortalData)
    (st : SessionState PortalData) (portal : List Nat) (max_rows : Nat) :
    (∀ st' out, step shim st (ClientMessage.execute portal max_rows) = .cont st' out →
      lookupPortal st'.portals portal = none) ∧
    (lookupPortal st.portals portal = none →
      step shim st (ClientMessage.execute portal max_rows)
        = .cont st (ServerMessage.errorResponse 83 (strBytes "Portal not found")).write) := by
  constructor
  · intro st' out h
    simp only [step] at h
    split at h
    · split at h
      · cases h
      · injection h with h1 h2
        subst h1
        exact lookupPortal_removePortal st.portals portal
    · rename_i heq
      injection h with h1 h2
      subst h1
      exact heq
  · intro h
    simp only [step]
    rw [h]

theorem c4_execute_portal_lifecycle_witness :
    lookupPortal (SessionState.portals (⟨[]⟩ : SessionState Unit)) pB = none ∧
    step shimU ⟨[]⟩ (ClientMessage.execute pB 0)
      = .cont ⟨[]⟩ (ServerMessage.errorResponse 83 (strBytes "Portal not found")).write := by
  constructor
  · exact (c4_execute_portal_lifecycle shimU ⟨[(pB, Portal.mk () none [])]⟩ pB 0).1 ⟨[]⟩ [] rfl
  · exact (c4_execute_portal_lifecycle shimU ⟨[]⟩ pB 0).2 rfl

/-- Claim C5 counterexample: two handshakes whose StartupMessages differ
(user alice versus user bob) leave the session in identical states with
identical outputs and identical results in every component, so the session
state cannot be retaining the startup parameters. -/
theorem c5_startup_parameters_not_retained :
    inputA ≠ inputB ∧
    init (⟨[]⟩ : SessionState Unit) shimU inputA
      = init (⟨[]⟩ : SessionState Unit) shimU inputB := by
  constructor
  · decide
  · simp [init, inputA, inputB, be32, StartupMessage.from_stream, readInt32, readExact,
      PasswordMessage.from_stream, parseStartupParams, read_string, applyParam, strBytes,
      insertParam]

/-- Claim C5 as amended: init fully parses the StartupMessage but discards
its value (the source binds it to an underscore), so the session state
after the handshake is exactly the state before it - the portal map - and
retains none of the startup parameters. -/
theorem c5_init_discards_startup {PortalData : Type} (st : SessionState PortalData)
    (shim : Shim PortalData) (input : List Nat)
    (r : SessionState PortalData × List Nat × List Nat)
    (h : init st shim input = .ok r) : r.1 = st :=
  (init_ok h).1

theorem c5_init_discards_startup_witness :
    ((⟨[]⟩, handshakeBytes shimU.default_parameters, ([] : List Nat)) :
      SessionState Unit × List Nat × List Nat).1 = (⟨[]⟩ : SessionState Unit) :=
  c5_init_discards_startup ⟨[]⟩ shimU inputA _
    (by simp [init, inputA, be32, StartupMessage.from_stream, readInt32, readExact,
      PasswordMessage.from_stream, parseStartupParams, read_string, applyParam, strBytes,
      insertParam])

/-- Claim C6 counterexample: for the ErrorResponse with severity S and
message Portal not found, the bytes following the length field are the
severity byte and the NUL-terminated message with no further zero byte,
not the claimed layout with an additional terminating zero. -/
theorem c6_error_response_no_extra_zero :
    ((ServerMessage.errorResponse 83 (strBytes "Portal not found")).write).drop 5
      ≠ 83 :: (strBytes "Portal not found" ++ [0, 0]) := by decide

/-- Claim C6 as amended: for every ErrorResponse the bytes written after
the length field are exactly one severity-code byte followed by the
message as a NUL-terminated string - a single terminating zero, with no
additional zero byte - and the length field declares message length plus
six. -/
theorem c6_error_response_layout (code : Nat) (message : List Nat) :
    ((ServerMessage.errorResponse code message).write).drop 5 = code :: (message ++ [0]) ∧
    ((ServerMessage.errorResponse code message).write).take 5
      = 69 :: be32 (message.length + 4 + 1 + 1) := by
  constructor
  · simp [ServerMessage.write, be32, List.drop_succ_cons]
  · simp [ServerMessage.write, be32, List.take_succ_cons]

/-- Claim C7 counterexample: for an ErrorResponse whose message has
4294967291 bytes, the declared length 4294967297 overflows the i32 cast in
write_int32: the written length field reads back 1 while 4294967297 bytes
follow the tag, so the claim as stated fails once a payload's declared
length reaches 2 to the 32. -/
theorem c7_length_field_overflow :
    readBe32 (((ServerMessage.errorResponse 83 (List.replicate 4294967291 0)).write).drop 1)
      ≠ (((ServerMessage.errorResponse 83 (List.replicate 4294967291 0)).write).drop 1).length := by
  have key : ∀ msg : List Nat, msg.length = 4294967291 →
      readBe32 (((ServerMessage.errorResponse 83 msg).write).drop 1)
        ≠ (((ServerMessage.errorResponse 83 msg).write).drop 1).length := by
    intro msg hlen
    have hbe : be32 4294967297 = [0, 0, 0, 1] := by norm_num [be32]
    simp only [ServerMessage.write, List.drop_succ_cons, List.drop_zero, hlen, hbe,
      List.cons_append, readBe32, List.length_cons, List.length_append]
    omega
  exact key (List.replicate 4294967291 0) (by rw [List.length_replicate])

/-- Claim C7 as amended: for every server message the codec can emit whose
declared length fits in 32 bits - so the usize-to-i32 cast in write_int32
is lossless - the four-byte length field written after the type tag equals
the number of bytes following the tag, the length field included; for
larger payloads the cast wraps modulo 2 to the 32 and the equality fails. -/
theorem c7_server_message_length_field (m : ServerMessage) (h : sizeOk m) :
    readBe32 (m.write.drop 1) = (m.write.drop 1).length := by
  cases m with
  | authenticationOk => decide
  | authenticationCleartextPassword => decide
  | bindComplete => decide
  | emptyQueryResponse => decide
  | noData => decide
  | parseComplete => decide
  | readyForQuery ts =>
    simp only [ServerMessage.write, List.drop_succ_cons, List.drop_zero]
    rw [readBe32_be32_append 5 _ (by omega)]
    simp [be32_length]
  | backendKeyData pid sk =>
    simp only [ServerMessage.write, List.drop_succ_cons, List.drop_zero, List.append_assoc]
    rw [readBe32_be32_append 12 _ (by omega)]
    simp [be32_length, be32i]
  | errorResponse code message =>
    simp only [ServerMessage.write, List.drop_succ_cons, List.drop_zero]
    rw [readBe32_be32_append _ _ h]
    simp [be32_length]
    omega
  | parameterStatus name value =>
    simp only [ServerMessage.write, List.drop_succ_cons, List.drop_zero]
    rw [readBe32_be32_append _ _ h]
    simp [be32_length]
    omega
  | commandComplete rows =>
    simp only [ServerMessage.write, List.drop_succ_cons, List.drop_zero]
    rw [readBe32_be32_append _ _ h]
    simp [be32_length]
    omega
  | dataRow fields =>
    simp only [ServerMessage.write, List.drop_succ_cons, List.drop_zero]
    rw [readBe32_be32_append _ _ h]
    simp [be32_length]
    omega
  | rowDescription fields =>
    simp only [ServerMessage.write, List.drop_succ_cons, List.drop_zero]
    rw [readBe32_be32_append _ _ h]
    simp [be32_length]
    omega

theorem c7_server_message_length_field_witness :
    readBe32 (((ServerMessage.errorResponse 83 (strBytes "Portal not found")).write).drop 1)
      = (((ServerMessage.errorResponse 83 (strBytes "Portal not found")).write).drop 1).length :=
  c7_server_message_length_field _ (by decide)

/-- Claim C8: result-format negotiation over N columns: zero codes give
all Text, one code applies to every column, a list matching the column
count is taken positionally as given, and every other length is a protocol
error (the source panics; format_codes returns none). -/
theorem c8_result_format_negotiation (columns : List Column)
    (result_format_codes : List FormatCode) :
    (result_format_codes = [] →
      format_codes columns result_format_codes
        = some (List.replicate columns.length FormatCode.text)) ∧
    (∀ c, result_format_codes = [c] →
      format_codes columns result_format_codes
        = some (List.replicate columns.length c)) ∧
    (result_format_codes.length = columns.length →
      format_codes columns result_format_codes = some result_format_codes) ∧
    (2 ≤ result_format_codes.length → result_format_codes.length ≠ columns.length →
      format_codes columns result_format_codes = none) := by
  refine ⟨?_, ?_, ?_, ?_⟩
  · intro h; subst h; simp [format_codes]
  · intro c h; subst h; simp [format_codes]
  · intro h
    match hm : result_format_codes, h with
    | [], h => simp [format_codes, ← h]
    | [c], h => simp [format_codes, ← h]
    | a :: b :: t, h => simp [format_codes, h]
  · intro h2 hne
    match hm : result_format_codes, h2, hne with
    | a :: b :: t, h2, hne =>
      simp only [format_codes]
      split
      · rename_i hc
        exact absurd hc (by simpa using hne)
      · rfl

theorem c8_result_format_negotiation_witness :
    format_codes [Column.mk [99] 23, Column.mk [100] 23] []
      = some [FormatCode.text, FormatCode.text] ∧
    format_codes [Column.mk [99] 23] [FormatCode.binary, FormatCode.text] = none := by
  constructor
  · exact ((c8_result_format_negotiation [Column.mk [99] 23, Column.mk [100] 23] []).1
      rfl).trans (by decide)
  · exact (c8_result_format_negotiation [Column.mk [99] 23]
      [FormatCode.binary, FormatCode.text]).2.2.2 (by decide) (by decide)

/-- Claim C9: handshake determinism - whenever init succeeds, the bytes it
writes from connection start up to and including the first ReadyForQuery
are exactly handshakeBytes of the shim default parameters, a pure function
of the fixed default_parameters result (and in particular the same across
any two runs on the same Startup+Password input). -/
theorem c9_handshake_deterministic {PortalData : Type} (st : SessionState PortalData)
    (shim : Shim PortalData) (input : List Nat)
    (r : SessionState PortalData × List Nat × List Nat)
    (h : init st shim input = .ok r) :
    r.2.1 = handshakeBytes shim.default_parameters :=
  (init_ok h).2

theorem c9_handshake_deterministic_witness :
    ((⟨[]⟩, handshakeBytes shimU.default_parameters, ([] : List Nat)) :
      SessionState Unit × List Nat × List Nat).2.1
      = handshakeBytes shimU.default_parameters :=
  c9_handshake_deterministic ⟨[]⟩ shimU inputB _
    (by simp [init, inputB, be32, StartupMessage.from_stream, readInt32, readExact,
      PasswordMessage.from_stream, parseStartupParams, read_string, applyParam, strBytes,
      insertParam])

/-- Claim C10: handling Describe(Portal, name) when the name is not a key
of the portal table panics on the failed unwrap of the portal lookup
instead of emitting an ErrorResponse or continuing the loop. -/
theorem c10_describe_missing_portal_panics {PortalData : Type} (shim : Shim PortalData)
    (st : SessionState PortalData) (name : List Nat)
    (h : lookupPortal st.portals name = none) :
    step shim st (ClientMessage.describe (Describe.portal name)) = .panicAbort := by
  simp only [step]
  rw [h]

theorem c10_describe_missing_portal_panics_witness :
    step shimU ⟨[]⟩ (ClientMessage.describe (Describe.portal pB)) = .panicAbort :=
  c10_describe_missing_portal_panics shimU ⟨[]⟩ pB rfl

end PgShim
